import Mathlib

/-!
# Verification of the tellodesk video capture / decode / record pipeline

This file gives a shallow embedding of the video pipeline of the tellodesk
ground-control application (`video.go`, both revisions present in the sources,
and the older `part_001` revision), and proves or refutes the frozen claims
about it.

The embedding follows the Go source:

* `recordVideoCB` / `stopRecordingVideoCB` — the recording controller
  callbacks (`video.go:78-169` and `video.go:447-515`);
* `customReader` — the byte-supply adapter handed to the decoding library
  (`video.go:208-219`, `video.go:554-565`, `part_001:97-105`);
* the decoder setup chain and per-unit decode loop of `videoListener`
  (`video.go:230-330`, `video.go:576-676`);
* the latest-frame cell (`feedImage` / `newFeedImage` of `videoWgtT`)
  written by `videoListener` and drained by `updateFeed`
  (`video.go:320-323`, `video.go:335-365`).

Go mutable globals become explicit state records; callbacks become state
transformers that additionally emit a trace of observable events (dialogs,
log lines, process signals, menu-sensitivity changes).  The recording buffer
of spec §4.3 does not exist in the sources under `src/`; it is modelled from
the spec where a claim needs it, and such definitions are marked.
-/

namespace Tellodesk

/-- One opaque compressed-video packet: an immutable byte sequence. -/
abbrev Packet := List Nat

/-- One decoded frame's pixel bytes (the `rgba.Pix` buffer). -/
abbrev Frame := List Nat

/-- Observable actions performed by the recording controller callbacks. -/
inductive Event where
  /-- a call `messageDialog(win, gtk.MESSAGE_INFO, msg)` — a non-fatal user message. -/
  | dialog (msg : String)
  /-- a `log.Println` / `log.Printf` call — a log line. -/
  | logLine (msg : String)
  /-- the call `videoConverter.Start()` succeeded: subprocess `id` is now running. -/
  | spawnConverter (id : Nat)
  /-- a `videoWriter.Close()` call (or `Flush` in the earlier revision). -/
  | closeWriter
  /-- a `videoConverter.Process.Signal(os.Interrupt)` call. -/
  | signalInterrupt
  /-- the goroutine running `videoConverter.Wait()` delivered the exit. -/
  | waitDone
  /-- a `videoConverter.Process.Kill()` call — forced termination. -/
  | kill
  /-- a `menuBar.recVidItem.SetSensitive b` call. -/
  | setRecVidSensitive (b : Bool)
  /-- a `menuBar.stopRecVidItem.SetSensitive b` call. -/
  | setStopRecVidSensitive (b : Bool)
  deriving DecidableEq, Repr

/-- The recording-related mutable globals of `video.go`, plus the two menu
items' sensitivity, which is the only state distinguishing Idle from Active
for the request dispatcher. -/
structure RecState where
  /-- the global `videoRecording` flag. -/
  videoRecording : Bool
  /-- whether `menuBar.recVidItem` (the start control) is sensitive. -/
  recVidSensitive : Bool
  /-- whether `menuBar.stopRecVidItem` (the stop control) is sensitive. -/
  stopRecVidSensitive : Bool
  /-- the global `videoConverter` handle (`none` before any start); the
  number identifies which spawn produced it. -/
  converter : Option Nat
  /-- the global `videoWriter` handle. -/
  writer : Option Nat
  /-- how many converter commands have been constructed so far — used to
  give each `exec.Command` result a distinct identity. -/
  spawnCount : Nat
  deriving DecidableEq, Repr

/-- Failure injection for `recordVideoCB`: whether `StdinPipe()` and
`videoConverter.Start()` return an error. -/
structure StartEnv where
  pipeFails : Bool
  startFails : Bool
  deriving DecidableEq, Repr

/-- Embedding of `recordVideoCB` (`video.go:447-488`, structurally identical at
`video.go:116-139`): build the converter command, open its stdin pipe, start
it; on either failure show an info dialog and return, otherwise set
`videoRecording`, disable the start control and enable the stop control. -/
def recordVideoCB (env : StartEnv) (s : RecState) : RecState × List Event :=
  let id := s.spawnCount
  let s1 : RecState := { s with converter := some id, spawnCount := s.spawnCount + 1 }
  if env.pipeFails then
    (s1, [Event.dialog "Could not prepare video converter"])
  else
    let s2 : RecState := { s1 with writer := some id }
    if env.startFails then
      (s2, [Event.dialog "Could not start video converter"])
    else
      ({ s2 with videoRecording := true, recVidSensitive := false,
                 stopRecVidSensitive := true },
       [Event.spawnConverter id, Event.setRecVidSensitive false,
        Event.setStopRecVidSensitive true])

/-- The graceful-stop timeout of `stopRecordingVideoCB`: `time.After(15 *
time.Second)`, in seconds. -/
def stopTimeout : Nat := 15

/-- Embedding of `stopRecordingVideoCB` (`video.go:490-515`, structurally identical at
`video.go:141-169`): clear `videoRecording`, close the writer, send
`os.Interrupt`, then race `videoConverter.Wait()` against the 15-second
timer: if the timer fires first, kill the process and log a warning;
finally re-enable the start control and disable the stop control.
`exitTime` is the subprocess's exit delay in seconds after the interrupt
(`none` if it never exits); the `Wait` branch of the `select` wins exactly
when that delay is below the timeout. -/
def stopRecordingVideoCB (exitTime : Option Nat) (s : RecState) :
    RecState × List Event :=
  let s1 : RecState := { s with videoRecording := false }
  let race : List Event :=
    match exitTime with
    | some t =>
      if t < stopTimeout then [Event.waitDone]
      else [Event.kill, Event.logLine "Failed to gracefully interrupt video converter"]
    | none => [Event.kill, Event.logLine "Failed to gracefully interrupt video converter"]
  ({ s1 with recVidSensitive := true, stopRecVidSensitive := false },
   [Event.closeWriter, Event.signalInterrupt] ++ race ++
   [Event.setRecVidSensitive true, Event.setStopRecVidSensitive false])

/-- A user request on the recording controls. -/
inductive Request where
  | start (env : StartEnv)
  | stop (exitTime : Option Nat)
  deriving DecidableEq, Repr

/-- Modelled from the spec: the menu wiring that connects the two controls to
`recordVideoCB` / `stopRecordingVideoCB` is in a repository file not present
under `src/`.  Per the spec (§4.4, §6 "UI control surface") and GTK
semantics, activating an insensitive control does nothing, so a start request
while the start control is disabled — which `recordVideoCB` makes it for the
whole Active/Stopping span — is ignored, and likewise a stop request while
the stop control is disabled. -/
def dispatch (r : Request) (s : RecState) : RecState × List Event :=
  match r with
  | .start env => if s.recVidSensitive then recordVideoCB env s else (s, [])
  | .stop t => if s.stopRecVidSensitive then stopRecordingVideoCB t s else (s, [])

/-- Modelled from the spec: the initial menu state is built in a repository
file not present under `src/`; per spec §4.4 the Idle configuration is
start-enabled / stop-disabled, and no recording is active at startup. -/
def initialState : RecState :=
  { videoRecording := false, recVidSensitive := true, stopRecVidSensitive := false,
    converter := none, writer := none, spawnCount := 0 }

/-! ## The byte-supply adapter `customReader` -/

/-- What one `customReader` call produces: the value returned to the decoding
library, and the writes it issues to `videoWriter`. -/
structure ReaderResult where
  /-- the packet returned to the decoder (`return pkt, len(pkt)`). -/
  ret : Packet
  /-- the returned length. -/
  retLen : Nat
  /-- the packets written to the encoder pipe by this call. -/
  written : List Packet
  deriving DecidableEq, Repr

/-- Embedding of `customReader` (`video.go:208-219`, `video.go:554-565`,
`part_001:97-105`): receive a packet from `videoChan`; under the read lock,
if `videoRecording` write it to `videoWriter`; return the packet and its
length.  All three revisions return the packet unchanged; they differ only in
how the write is issued. -/
def customReader (recording : Bool) (pkt : Packet) : ReaderResult :=
  { ret := pkt, retLen := pkt.length,
    written := if recording then [pkt] else [] }

/-- The sequence of `(bytes, length)` results the decoder pulls for a given
arrival sequence. -/
def decoderSupply (recording : Bool) (arrivals : List Packet) :
    List (Packet × Nat) :=
  arrivals.map (fun p => ((customReader recording p).ret, (customReader recording p).retLen))

/-- The packets delivered to the encoder pipe by the synchronous-write
revision (`video.go:208-219`): each call writes on the calling thread, so
deliveries happen in arrival order. -/
def syncDeliveries (recording : Bool) (arrivals : List Packet) : List Packet :=
  (arrivals.map (fun p => (customReader recording p).written)).flatten

/-- The admissible encoder delivery orders of the goroutine-per-write
revision (`video.go:554-565`): `go videoWriter.Write(pkt)` spawns each write
on its own goroutine with no synchronisation, so the pending writes may
complete in any order — any permutation of the arrival sequence is an
admissible delivery order. -/
def asyncDeliveries (arrivals : List Packet) : List (List Packet) :=
  arrivals.permutations

/-! ## The latest-frame cell (`feedImage` / `newFeedImage`) -/

/-- The frame-handoff fields of `videoWgtT`: the single latest-frame slot and
its dirty flag, both guarded by `newFeedImageMu`. -/
structure FeedCell where
  /-- the `wgt.feedImage` field — `none` before the first decoded frame. -/
  feedImage : Option Frame
  /-- the `wgt.newFeedImage` flag — whether the stored frame is unconsumed. -/
  newFeedImage : Bool
  deriving DecidableEq, Repr

/-- The publish step of `videoListener` (`video.go:320-323`): under the
mutex, store the freshly decoded frame and raise the dirty flag, overwriting
any unconsumed previous frame. -/
def publishFrame (_c : FeedCell) (f : Frame) : FeedCell :=
  { feedImage := some f, newFeedImage := true }

/-- The frame-consuming step of `updateFeed` (`video.go:335-354`): under the
mutex, if the dirty flag is set, take the stored frame for display and clear
the flag; otherwise report that nothing new has arrived.  It is a total
function of the cell — it never waits for the decoder. -/
def updateFeed (c : FeedCell) : Option Frame × FeedCell :=
  if c.newFeedImage then (c.feedImage, { c with newFeedImage := false })
  else (none, c)

/-! ## Decoder setup and decode loop (`videoListener`) -/

/-- How `videoListener` ends up, distinguishing a whole-application abort
from an abort of the decode task alone.  `log.Fatalf` is `appExit`: it calls
`os.Exit(1)` and takes the whole process down.  No construct in the source
produces `taskAbort`; the constructor exists so that statements about "aborts
only the decode task" can be expressed. -/
inductive Outcome where
  /-- a `log.Fatalf msg` call — the whole application exits. -/
  | appExit (msg : String)
  /-- the decode task alone stops with a reported fatal error. -/
  | taskAbort (msg : String)
  /-- setup completed; the decode loop is entered. -/
  | running
  deriving DecidableEq, Repr

/-- Failure injection for the decoder setup chain of `videoListener`
(`video.go:576-633`): which of the negotiation/setup steps fail. -/
structure SetupEnv where
  /-- whether `iCtx.SetInputFormat` errors. -/
  setInputFormatFails : Bool
  /-- whether `gmf.NewAVIOContext` errors. -/
  newAVIOContextFails : Bool
  /-- whether `iCtx.OpenInput` errors. -/
  openInputFails : Bool
  /-- whether `iCtx.GetBestStream` errors. -/
  getBestStreamFails : Bool
  /-- whether `gmf.FindEncoder(AV_CODEC_ID_RAWVIDEO)` errors. -/
  findEncoderFails : Bool
  /-- whether `cc.Open(nil)` errors. -/
  ccOpenFails : Bool
  /-- whether `dstFrame.ImgAlloc()` errors. -/
  imgAllocFails : Bool
  deriving DecidableEq, Repr

/-- Whether any setup step fails. -/
def SetupEnv.anyFails (e : SetupEnv) : Bool :=
  e.setInputFormatFails || e.newAVIOContextFails || e.openInputFails ||
  e.getBestStreamFails || e.findEncoderFails || e.ccOpenFails || e.imgAllocFails

/-- The setup chain of `videoListener` (`video.go:576-633`): each
negotiation/setup step that returns an error reaches a `log.Fatalf` call,
which terminates the whole application with the corresponding diagnostic. -/
def videoListenerSetup (e : SetupEnv) : Outcome :=
  if e.setInputFormatFails then .appExit "iCtx SetInputFormat"
  else if e.newAVIOContextFails then .appExit "NewAVIOContext"
  else if e.openInputFails then .appExit "iCtx OpenInput"
  else if e.getBestStreamFails then .appExit "GetBestStream"
  else if e.findEncoderFails then .appExit "FindDecoder"
  else if e.ccOpenFails then .appExit "cc Open"
  else if e.imgAllocFails then .appExit "ImgAlloc"
  else .running

/-- One coded unit as seen by the decode loop: its stream index and how the
per-unit library calls behave on it. -/
structure CodedUnit where
  /-- the value of `pkt.StreamIndex()`. -/
  streamIndex : Nat
  /-- whether `pkt.Frames(codecCtx)` succeeds. -/
  decodeOk : Bool
  /-- whether `dstFrame.Encode(cc)` succeeds. -/
  encodeOk : Bool
  /-- the pixel bytes produced when both calls succeed. -/
  frame : Frame
  deriving DecidableEq, Repr

/-- The state threaded through the decode loop: the latest-frame cell and the
log lines emitted so far. -/
structure LoopState where
  cell : FeedCell
  logs : List String
  deriving DecidableEq, Repr

/-- The result of processing one coded unit. -/
inductive StepResult where
  /-- the loop continues with the next unit. -/
  | next (s : LoopState)
  /-- a `log.Fatalf` call — the whole application exits. -/
  | fatal (msg : String)
  deriving DecidableEq, Repr

/-- One iteration of the decode loop (`video.go:641-675`): skip packets of
the wrong stream with a log line; on a `pkt.Frames` error log and continue
with no frame published; on a `dstFrame.Encode` error call `log.Fatalf`;
otherwise publish the decoded frame to the latest-frame cell. -/
def videoListenerStep (srcIndex : Nat) (u : CodedUnit) (s : LoopState) :
    StepResult :=
  if u.streamIndex ≠ srcIndex then
    .next { s with logs := s.logs ++ ["Skipping wrong stream packet"] }
  else if !u.decodeOk then
    .next { s with logs := s.logs ++ ["CodeCtx error"] }
  else if !u.encodeOk then
    .fatal "Encode"
  else
    .next { s with cell := publishFrame s.cell u.frame }

/-- The whole decode loop over a finite prefix of the coded-unit stream. -/
def videoListenerLoop (srcIndex : Nat) : List CodedUnit → LoopState → StepResult
  | [], s => .next s
  | u :: rest, s =>
    match videoListenerStep srcIndex u s with
    | .next s1 => videoListenerLoop srcIndex rest s1
    | .fatal m => .fatal m

/-! ## The recording buffer (spec §4.3) -/

/-- Modelled from the spec: the bounded FIFO `RecordingBuffer` of §4.3 with
its `tryEnqueue` operation.  No such buffer exists in the sources under
`src/` (the revisions either write synchronously or fire-and-forget a
goroutine per packet); the spec adopts the bounded-queue-with-drop policy.
`tryEnqueue` appends to the tail if the current length is below the
capacity, otherwise it rejects the packet. -/
def tryEnqueue (cap : Nat) (buf : List Packet) (p : Packet) :
    List Packet × Bool :=
  if buf.length < cap then (buf ++ [p], true) else (buf, false)

/-- Modelled from the spec: the `dequeue` operation of `RecordingBuffer`
(§4.3) — remove and return the head packet in FIFO order, or report empty. -/
def dequeue (buf : List Packet) : Option Packet × List Packet :=
  match buf with
  | [] => (none, [])
  | h :: t => (some h, t)

/-- One operation on the recording buffer: a producer `tryEnqueue` of a
packet, or a consumer `dequeue`. -/
inductive BufOp where
  | enq (p : Packet)
  | deq
  deriving DecidableEq, Repr

/-- The history of a buffer run: the current contents together with the
accepted, rejected and drained packet sequences, each in order. -/
structure BufRun where
  buf : List Packet
  accepted : List Packet
  rejected : List Packet
  drained : List Packet
  deriving DecidableEq, Repr

/-- The empty buffer with an empty history. -/
def BufRun.initial : BufRun := ⟨[], [], [], []⟩

/-- Modelled from the spec: one step of the producer/consumer interleaving on
the recording buffer, recording the outcome in the history. -/
def bufStep (cap : Nat) (r : BufRun) : BufOp → BufRun
  | .enq p =>
    match tryEnqueue cap r.buf p with
    | (buf1, true) => { r with buf := buf1, accepted := r.accepted ++ [p] }
    | (buf1, false) => { r with buf := buf1, rejected := r.rejected ++ [p] }
  | .deq =>
    match dequeue r.buf with
    | (some p, buf1) => { r with buf := buf1, drained := r.drained ++ [p] }
    | (none, buf1) => { r with buf := buf1 }

/-- A whole run of buffer operations from the empty buffer. -/
def bufRun (cap : Nat) (ops : List BufOp) : BufRun :=
  ops.foldl (bufStep cap) BufRun.initial



/-! ## Theorems -/

/-- The run invariant of the recording buffer: the accepted packets are
exactly the drained ones followed by the current contents (FIFO, nothing
lost, nothing reordered), and the contents never exceed the capacity. -/
def BufInv (cap : Nat) (r : BufRun) : Prop :=
  r.drained ++ r.buf = r.accepted ∧ r.buf.length ≤ cap

theorem bufStep_inv (cap : Nat) (r : BufRun) (op : BufOp)
    (h : BufInv cap r) : BufInv cap (bufStep cap r op) := by
  obtain ⟨hfifo, hlen⟩ := h
  cases op with
  | enq p =>
    by_cases hlt : r.buf.length < cap
    · simp only [bufStep, tryEnqueue, if_pos hlt]
      refine ⟨?_, ?_⟩
      · simp [← hfifo]
      · simpa using hlt
    · simp only [bufStep, tryEnqueue, if_neg hlt]
      exact ⟨hfifo, hlen⟩
  | deq =>
    cases hb : r.buf with
    | nil =>
      simp only [bufStep, dequeue, hb]
      refine ⟨?_, ?_⟩
      · simpa [hb] using hfifo
      · simp
    | cons p t =>
      simp only [bufStep, dequeue, hb]
      refine ⟨?_, ?_⟩
      · simpa [hb] using hfifo
      · have h1 := hlen
        rw [hb] at h1
        simp at h1 ⊢
        omega

theorem bufFoldl_inv (cap : Nat) (ops : List BufOp) :
    ∀ r : BufRun, BufInv cap r → BufInv cap (ops.foldl (bufStep cap) r) := by
  induction ops with
  | nil => intro r h; simpa using h
  | cons op ops ih =>
    intro r h
    simpa using ih (bufStep cap r op) (bufStep_inv cap r op h)

theorem bufRun_inv (cap : Nat) (ops : List BufOp) : BufInv cap (bufRun cap ops) := by
  exact bufFoldl_inv cap ops BufRun.initial ⟨rfl, by simp [BufRun.initial]⟩

theorem bufRun_enq_go (cap : Nat) (ps : List Packet) :
    ∀ r : BufRun, r.buf.length ≤ cap →
      (ps.map BufOp.enq).foldl (bufStep cap) r =
        { buf := r.buf ++ ps.take (cap - r.buf.length),
          accepted := r.accepted ++ ps.take (cap - r.buf.length),
          rejected := r.rejected ++ ps.drop (cap - r.buf.length),
          drained := r.drained } := by
  induction ps with
  | nil => intro r hr; simp
  | cons p ps ih =>
    intro r hr
    simp only [List.map_cons, List.foldl_cons]
    by_cases hlt : r.buf.length < cap
    · have hstep : bufStep cap r (BufOp.enq p) =
          { r with buf := r.buf ++ [p], accepted := r.accepted ++ [p] } := by
        simp [bufStep, tryEnqueue, hlt]
      rw [hstep, ih _ (by simp; omega)]
      have hk : cap - r.buf.length = (cap - (r.buf.length + 1)) + 1 := by omega
      simp [hk, List.append_assoc]
    · have heq : r.buf.length = cap := by omega
      have hstep : bufStep cap r (BufOp.enq p) =
          { r with rejected := r.rejected ++ [p] } := by
        simp [bufStep, tryEnqueue, hlt]
      rw [hstep, ih _ (by simpa using hr)]
      have hz : cap - r.buf.length = 0 := by omega
      simp [hz]

/-- Claim C1: the recording buffer is a bounded FIFO of capacity `cap` — over
every sequence of `tryEnqueue`/`dequeue` operations, packets are dequeued
strictly in arrival order (the accepted sequence is exactly the drained
sequence followed by the current contents), the buffer length never exceeds
the capacity, when more than `cap` packets are enqueued before any dequeue
exactly the first `cap` are retained and the rest are rejected, and an
enqueue against a full buffer rejects the packet while leaving the queued
contents untouched (the caller logs the one-line warning). -/
theorem C1_recording_buffer_fifo (cap : Nat) (ops : List BufOp)
    (ps : List Packet) (r : BufRun) (p : Packet)
    (hfull : r.buf.length = cap) :
    (bufRun cap ops).drained ++ (bufRun cap ops).buf = (bufRun cap ops).accepted ∧
    (bufRun cap ops).buf.length ≤ cap ∧
    (bufRun cap (ps.map BufOp.enq)).buf = ps.take cap ∧
    (bufRun cap (ps.map BufOp.enq)).rejected = ps.drop cap ∧
    (bufRun cap (ps.map BufOp.enq)).drained = [] ∧
    bufStep cap r (BufOp.enq p) = { r with rejected := r.rejected ++ [p] } := by
  obtain ⟨hfifo, hlen⟩ := bufRun_inv cap ops
  have henq := bufRun_enq_go cap ps BufRun.initial (by simp [BufRun.initial])
  refine ⟨hfifo, hlen, ?_, ?_, ?_, ?_⟩
  · rw [bufRun, henq]; simp [BufRun.initial]
  · rw [bufRun, henq]; simp [BufRun.initial]
  · rw [bufRun, henq]; simp [BufRun.initial]
  · have hnlt : ¬ r.buf.length < cap := by omega
    simp [bufStep, tryEnqueue, hnlt]

/-- Witness for C1 at capacity 2: three packets enqueued and one dequeued,
an all-enqueue overload of three packets, and a rejection against a
concrete full buffer. -/
theorem C1_recording_buffer_fifo_witness :
    (bufRun 2 [BufOp.enq [1], BufOp.enq [2], BufOp.enq [3], BufOp.deq]).drained ++
      (bufRun 2 [BufOp.enq [1], BufOp.enq [2], BufOp.enq [3], BufOp.deq]).buf =
      (bufRun 2 [BufOp.enq [1], BufOp.enq [2], BufOp.enq [3], BufOp.deq]).accepted ∧
    (bufRun 2 [BufOp.enq [1], BufOp.enq [2], BufOp.enq [3], BufOp.deq]).buf.length ≤ 2 ∧
    (bufRun 2 ([[4], [5], [6]].map BufOp.enq)).buf = [[4], [5], [6]].take 2 ∧
    (bufRun 2 ([[4], [5], [6]].map BufOp.enq)).rejected = [[4], [5], [6]].drop 2 ∧
    (bufRun 2 ([[4], [5], [6]].map BufOp.enq)).drained = [] ∧
    bufStep 2 ⟨[[1], [2]], [[1], [2]], [], []⟩ (BufOp.enq [7]) =
      { buf := [[1], [2]], accepted := [[1], [2]], rejected := [[7]], drained := [] } :=
  C1_recording_buffer_fifo 2 [BufOp.enq [1], BufOp.enq [2], BufOp.enq [3], BufOp.deq]
    [[4], [5], [6]] ⟨[[1], [2]], [[1], [2]], [], []⟩ [7] (by decide)

/-- Claim C3: the latest-frame cell — after `videoListener` publishes a
decoded frame, the next `updateFeed` consumes exactly that frame as new,
exactly once; a second `updateFeed` with no intervening publish reports that
no new frame has arrived; and `updateFeed` is a total function of the cell
alone, so it never waits for the decoder. -/
theorem C3_frame_cell_take_latest :
    (∀ (c : FeedCell) (f : Frame),
       updateFeed (publishFrame c f) = (some f, ⟨some f, false⟩)) ∧
    (∀ c : FeedCell, (updateFeed (updateFeed c).2).1 = none) := by
  constructor
  · intro c f
    simp [updateFeed, publishFrame]
  · intro c
    by_cases h : c.newFeedImage <;> simp [updateFeed, h]

/-- Claim C10: the recording side-path never interferes with the decode
path — `customReader` hands the decoder exactly the received packet and its
exact length whether or not recording is active, so two runs on the same
arrival sequence, one with recording on and one off, supply identical byte
sequences to the decoder. -/
theorem C10_recording_noninterference :
    (∀ arrivals : List Packet, decoderSupply true arrivals = decoderSupply false arrivals) ∧
    (∀ (recording : Bool) (pkt : Packet),
       (customReader recording pkt).ret = pkt ∧
       (customReader recording pkt).retLen = pkt.length) := by
  constructor
  · intro arrivals
    simp [decoderSupply, customReader]
  · intro recording pkt
    exact ⟨rfl, rfl⟩

/-- Claim C2: stopping an active recording — if the converter subprocess
exits within the 15-second timeout the controller reaches the Idle control
configuration (start re-enabled, stop disabled, recording flag cleared)
without ever sending a kill; if it has not exited when the timeout elapses,
a forced kill is issued and the graceful-interrupt failure is logged, and
the controller still reaches Idle; in both cases the release of the
subprocess (exit observed or kill issued) precedes the control updates that
report Idle. -/
theorem C2_stop_recording (s : RecState) (exitTime : Option Nat)
    (hActive : s.videoRecording = true) :
    ((stopRecordingVideoCB exitTime s).1.videoRecording = false ∧
     (stopRecordingVideoCB exitTime s).1.recVidSensitive = true ∧
     (stopRecordingVideoCB exitTime s).1.stopRecVidSensitive = false) ∧
    (∀ t, exitTime = some t → t < stopTimeout →
       (stopRecordingVideoCB exitTime s).2 =
         [Event.closeWriter, Event.signalInterrupt, Event.waitDone,
          Event.setRecVidSensitive true, Event.setStopRecVidSensitive false] ∧
       Event.kill ∉ (stopRecordingVideoCB exitTime s).2) ∧
    ((exitTime = none ∨ ∃ t, exitTime = some t ∧ stopTimeout ≤ t) →
       (stopRecordingVideoCB exitTime s).2 =
         [Event.closeWriter, Event.signalInterrupt, Event.kill,
          Event.logLine "Failed to gracefully interrupt video converter",
          Event.setRecVidSensitive true, Event.setStopRecVidSensitive false]) ∧
    (∃ l1 l2, (stopRecordingVideoCB exitTime s).2 = l1 ++ l2 ∧
       (Event.waitDone ∈ l1 ∨ Event.kill ∈ l1) ∧
       Event.setRecVidSensitive true ∈ l2 ∧
       Event.setStopRecVidSensitive false ∈ l2) := by
  refine ⟨⟨rfl, rfl, rfl⟩, ?_, ?_, ?_⟩
  · intro t ht hlt
    subst ht
    constructor
    · simp [stopRecordingVideoCB, hlt]
    · simp [stopRecordingVideoCB, hlt]
  · rintro (rfl | ⟨t, rfl, hle⟩)
    · rfl
    · have hnlt : ¬ t < stopTimeout := by omega
      simp [stopRecordingVideoCB, hnlt]
  · rcases exitTime with _ | t
    · exact ⟨[Event.closeWriter, Event.signalInterrupt, Event.kill,
              Event.logLine "Failed to gracefully interrupt video converter"],
             [Event.setRecVidSensitive true, Event.setStopRecVidSensitive false],
             rfl, by simp, by simp, by simp⟩
    · by_cases hlt : t < stopTimeout
      · exact ⟨[Event.closeWriter, Event.signalInterrupt, Event.waitDone],
               [Event.setRecVidSensitive true, Event.setStopRecVidSensitive false],
               by simp [stopRecordingVideoCB, hlt], by simp, by simp, by simp⟩
      · exact ⟨[Event.closeWriter, Event.signalInterrupt, Event.kill,
                Event.logLine "Failed to gracefully interrupt video converter"],
               [Event.setRecVidSensitive true, Event.setStopRecVidSensitive false],
               by simp [stopRecordingVideoCB, hlt], by simp, by simp, by simp⟩

/-- Witness for C2: a concrete active state with a converter that exits
after 3 seconds. -/
theorem C2_stop_recording_witness :
    ((stopRecordingVideoCB (some 3)
        ⟨true, false, true, some 0, some 0, 1⟩).1.videoRecording = false ∧
     (stopRecordingVideoCB (some 3)
        ⟨true, false, true, some 0, some 0, 1⟩).1.recVidSensitive = true ∧
     (stopRecordingVideoCB (some 3)
        ⟨true, false, true, some 0, some 0, 1⟩).1.stopRecVidSensitive = false) ∧
    (∀ t, (some 3 : Option Nat) = some t → t < stopTimeout →
       (stopRecordingVideoCB (some 3) ⟨true, false, true, some 0, some 0, 1⟩).2 =
         [Event.closeWriter, Event.signalInterrupt, Event.waitDone,
          Event.setRecVidSensitive true, Event.setStopRecVidSensitive false] ∧
       Event.kill ∉
         (stopRecordingVideoCB (some 3) ⟨true, false, true, some 0, some 0, 1⟩).2) ∧
    (((some 3 : Option Nat) = none ∨
        ∃ t, (some 3 : Option Nat) = some t ∧ stopTimeout ≤ t) →
       (stopRecordingVideoCB (some 3) ⟨true, false, true, some 0, some 0, 1⟩).2 =
         [Event.closeWriter, Event.signalInterrupt, Event.kill,
          Event.logLine "Failed to gracefully interrupt video converter",
          Event.setRecVidSensitive true, Event.setStopRecVidSensitive false]) ∧
    (∃ l1 l2,
       (stopRecordingVideoCB (some 3) ⟨true, false, true, some 0, some 0, 1⟩).2 =
         l1 ++ l2 ∧
       (Event.waitDone ∈ l1 ∨ Event.kill ∈ l1) ∧
       Event.setRecVidSensitive true ∈ l2 ∧
       Event.setStopRecVidSensitive false ∈ l2) :=
  C2_stop_recording ⟨true, false, true, some 0, some 0, 1⟩ (some 3) rfl

/-- Claim C4: starting a recording is idempotent while not Idle — after a
successful start the start control is insensitive, so a second start request
with no intervening stop is ignored: the state (recording flag, controls,
converter and writer handles, spawn count) is exactly unchanged and no event
— in particular no second subprocess spawn — occurs; more generally any
start request finding the start control disabled is a no-op. -/
theorem C4_start_idempotent (s : RecState) (env env2 : StartEnv)
    (hIdle : s.recVidSensitive = true)
    (hp : env.pipeFails = false) (hs : env.startFails = false) :
    (dispatch (.start env) s).1.videoRecording = true ∧
    (dispatch (.start env) s).1.recVidSensitive = false ∧
    dispatch (.start env2) (dispatch (.start env) s).1 =
      ((dispatch (.start env) s).1, []) ∧
    (∀ s2 : RecState, s2.recVidSensitive = false →
       dispatch (.start env2) s2 = (s2, [])) := by
  have h1 : dispatch (.start env) s = recordVideoCB env s := by
    simp [dispatch, hIdle]
  have h2 : (recordVideoCB env s).1.recVidSensitive = false := by
    simp [recordVideoCB, hp, hs]
  refine ⟨?_, ?_, ?_, ?_⟩
  · rw [h1]; simp [recordVideoCB, hp, hs]
  · rw [h1]; exact h2
  · rw [h1]; simp [dispatch, h2]
  · intro s2 hs2; simp [dispatch, hs2]

/-- Witness for C4: starting from the initial Idle state with a healthy
converter, then issuing a second start request. -/
theorem C4_start_idempotent_witness :
    (dispatch (.start ⟨false, false⟩) initialState).1.videoRecording = true ∧
    (dispatch (.start ⟨false, false⟩) initialState).1.recVidSensitive = false ∧
    dispatch (.start ⟨false, false⟩)
        (dispatch (.start ⟨false, false⟩) initialState).1 =
      ((dispatch (.start ⟨false, false⟩) initialState).1, []) ∧
    (∀ s2 : RecState, s2.recVidSensitive = false →
       dispatch (.start ⟨false, false⟩) s2 = (s2, [])) :=
  C4_start_idempotent initialState ⟨false, false⟩ ⟨false, false⟩ rfl rfl rfl

/-- Claim C5: a stop request while Idle is a no-op — the stop control is
insensitive both at startup and after a completed stop, so the request
leaves the recording state exactly unchanged and performs no action (hence
no error and no crash); a second stop request arriving after a stop has run
is likewise ignored. -/
theorem C5_stop_idle_noop (s sA : RecState) (t t2 u : Option Nat)
    (hIdle : s.stopRecVidSensitive = false)
    (hA : sA.stopRecVidSensitive = true) :
    dispatch (.stop t) s = (s, []) ∧
    dispatch (.stop t2) initialState = (initialState, []) ∧
    dispatch (.stop u) (dispatch (.stop t) sA).1 =
      ((dispatch (.stop t) sA).1, []) := by
  refine ⟨?_, ?_, ?_⟩
  · simp [dispatch, hIdle]
  · simp [dispatch, initialState]
  · have h1 : dispatch (.stop t) sA = stopRecordingVideoCB t sA := by
      simp [dispatch, hA]
    rw [h1]
    simp [dispatch, stopRecordingVideoCB]

/-- Witness for C5: a stop request on the initial Idle state and a repeated
stop after stopping a concrete active state. -/
theorem C5_stop_idle_noop_witness :
    dispatch (.stop (some 1)) initialState = (initialState, []) ∧
    dispatch (.stop (some 2)) initialState = (initialState, []) ∧
    dispatch (.stop (some 4))
        (dispatch (.stop (some 1)) ⟨true, false, true, some 0, some 0, 1⟩).1 =
      ((dispatch (.stop (some 1)) ⟨true, false, true, some 0, some 0, 1⟩).1, []) :=
  C5_stop_idle_noop initialState ⟨true, false, true, some 0, some 0, 1⟩
    (some 1) (some 2) (some 4) rfl rfl

/-- Recognizer for the whole-application-exit outcome (`log.Fatalf`). -/
def isAppExit : Outcome → Bool
  | .appExit _ => true
  | _ => false

/-- Recognizer for the decode-task-only abort outcome. -/
def isTaskAbort : Outcome → Bool
  | .taskAbort _ => true
  | _ => false

/-- Counterexample to claim C6: at the concrete input where only
`iCtx.OpenInput` fails, `videoListener` reaches `log.Fatalf`, which
terminates the whole application — not an abort of the decode task alone,
contradicting "aborts only the decode task ... and no condition in this core
crashes the whole application except post-setup internal invariant
violations". -/
theorem C6_counterexample :
    videoListenerSetup ⟨false, false, true, false, false, false, false⟩ =
      Outcome.appExit "iCtx OpenInput" ∧
    (⟨false, false, true, false, false, false, false⟩ : SetupEnv).anyFails = true ∧
    isAppExit (videoListenerSetup ⟨false, false, true, false, false, false, false⟩) = true ∧
    isTaskAbort (videoListenerSetup ⟨false, false, true, false, false, false, false⟩) = false := by
  exact ⟨rfl, rfl, rfl, rfl⟩

/-- Amended claim C6: every decoder negotiation/setup failure (cannot open
input, no usable video stream, cannot open the output conversion path, and
the other setup steps) terminates the whole application through `log.Fatalf`
with the corresponding diagnostic — the same whole-application escalation the
source uses for post-setup invariant violations — and no setup path aborts
the decode task alone. -/
theorem C6_setup_failure_app_exit (e : SetupEnv) (h : e.anyFails = true) :
    isAppExit (videoListenerSetup e) = true ∧
    videoListenerSetup e ≠ Outcome.running ∧
    (∀ e2 : SetupEnv, isTaskAbort (videoListenerSetup e2) = false) := by
  refine ⟨?_, ?_, ?_⟩
  · rcases e with ⟨a, b, c, d, f, g, i⟩
    cases a <;> cases b <;> cases c <;> cases d <;> cases f <;> cases g <;> cases i <;>
      simp_all [videoListenerSetup, SetupEnv.anyFails, isAppExit]
  · rcases e with ⟨a, b, c, d, f, g, i⟩
    cases a <;> cases b <;> cases c <;> cases d <;> cases f <;> cases g <;> cases i <;>
      simp_all [videoListenerSetup, SetupEnv.anyFails]
  · rintro ⟨a, b, c, d, f, g, i⟩
    cases a <;> cases b <;> cases c <;> cases d <;> cases f <;> cases g <;> cases i <;> rfl

/-- Witness for the amended C6 at the input where `cc.Open` fails. -/
theorem C6_setup_failure_app_exit_witness :
    isAppExit (videoListenerSetup ⟨false, false, false, false, false, true, false⟩) = true ∧
    videoListenerSetup ⟨false, false, false, false, false, true, false⟩ ≠ Outcome.running ∧
    (∀ e2 : SetupEnv, isTaskAbort (videoListenerSetup e2) = false) :=
  C6_setup_failure_app_exit ⟨false, false, false, false, false, true, false⟩ rfl

/-- Claim C7: a runtime decode failure on a single coded unit
(`pkt.Frames` returning an error) is logged and the loop continues with the
next unit; the latest-frame cell is untouched (no frame published for the
failed unit) and the step is not fatal to the pipeline or the application. -/
theorem C7_decode_failure_nonfatal (srcIndex : Nat) (u : CodedUnit)
    (st : LoopState) (rest : List CodedUnit)
    (hstream : u.streamIndex = srcIndex) (hdec : u.decodeOk = false) :
    videoListenerStep srcIndex u st =
      .next { st with logs := st.logs ++ ["CodeCtx error"] } ∧
    (∀ m, videoListenerStep srcIndex u st ≠ .fatal m) ∧
    ({ st with logs := st.logs ++ ["CodeCtx error"] } : LoopState).cell = st.cell ∧
    videoListenerLoop srcIndex (u :: rest) st =
      videoListenerLoop srcIndex rest { st with logs := st.logs ++ ["CodeCtx error"] } := by
  have hstep : videoListenerStep srcIndex u st =
      .next { st with logs := st.logs ++ ["CodeCtx error"] } := by
    simp [videoListenerStep, hstream, hdec]
  refine ⟨hstep, ?_, rfl, ?_⟩
  · intro m hcontra
    rw [hstep] at hcontra
    exact StepResult.noConfusion hcontra
  · simp [videoListenerLoop, hstep]

/-- Witness for C7: a corrupt unit on the right stream, followed by one
healthy unit. -/
theorem C7_decode_failure_nonfatal_witness :
    videoListenerStep 0 ⟨0, false, true, []⟩ ⟨⟨none, false⟩, []⟩ =
      .next { (⟨⟨none, false⟩, []⟩ : LoopState) with
                logs := ([] : List String) ++ ["CodeCtx error"] } ∧
    (∀ m, videoListenerStep 0 ⟨0, false, true, []⟩ ⟨⟨none, false⟩, []⟩ ≠ .fatal m) ∧
    ({ (⟨⟨none, false⟩, []⟩ : LoopState) with
         logs := ([] : List String) ++ ["CodeCtx error"] } : LoopState).cell =
      (⟨⟨none, false⟩, []⟩ : LoopState).cell ∧
    videoListenerLoop 0 [⟨0, false, true, []⟩, ⟨0, true, true, [9]⟩] ⟨⟨none, false⟩, []⟩ =
      videoListenerLoop 0 [⟨0, true, true, [9]⟩]
        { (⟨⟨none, false⟩, []⟩ : LoopState) with
            logs := ([] : List String) ++ ["CodeCtx error"] } :=
  C7_decode_failure_nonfatal 0 ⟨0, false, true, []⟩ ⟨⟨none, false⟩, []⟩
    [⟨0, true, true, [9]⟩] rfl rfl

/-- Claim C8: if starting a recording fails because the stdin pipe cannot be
created or the converter subprocess cannot be started, the user gets exactly
one non-fatal info dialog, the recording flag stays false (so `customReader`
delivers nothing to an encoder), and the controls keep the Idle
configuration (start enabled, stop disabled). -/
theorem C8_start_failure_stays_idle (s : RecState) (env : StartEnv)
    (hRec : s.videoRecording = false)
    (hStart : s.recVidSensitive = true)
    (hStop : s.stopRecVidSensitive = false)
    (hfail : env.pipeFails = true ∨ env.startFails = true) :
    (recordVideoCB env s).1.videoRecording = false ∧
    (recordVideoCB env s).1.recVidSensitive = true ∧
    (recordVideoCB env s).1.stopRecVidSensitive = false ∧
    ((recordVideoCB env s).2 = [Event.dialog "Could not prepare video converter"] ∨
     (recordVideoCB env s).2 = [Event.dialog "Could not start video converter"]) ∧
    (∀ pkt : Packet,
       (customReader (recordVideoCB env s).1.videoRecording pkt).written = []) := by
  cases hp : env.pipeFails with
  | true =>
    refine ⟨?_, ?_, ?_, Or.inl ?_, ?_⟩ <;>
      simp [recordVideoCB, hp, customReader, hRec, hStart, hStop]
  | false =>
    have hsf : env.startFails = true := by
      rcases hfail with h | h
      · rw [hp] at h; exact absurd h (by simp)
      · exact h
    refine ⟨?_, ?_, ?_, Or.inr ?_, ?_⟩ <;>
      simp [recordVideoCB, hp, hsf, customReader, hRec, hStart, hStop]

/-- Witness for C8: a pipe-creation failure from the initial Idle state. -/
theorem C8_start_failure_stays_idle_witness :
    (recordVideoCB ⟨true, false⟩ initialState).1.videoRecording = false ∧
    (recordVideoCB ⟨true, false⟩ initialState).1.recVidSensitive = true ∧
    (recordVideoCB ⟨true, false⟩ initialState).1.stopRecVidSensitive = false ∧
    ((recordVideoCB ⟨true, false⟩ initialState).2 =
       [Event.dialog "Could not prepare video converter"] ∨
     (recordVideoCB ⟨true, false⟩ initialState).2 =
       [Event.dialog "Could not start video converter"]) ∧
    (∀ pkt : Packet,
       (customReader (recordVideoCB ⟨true, false⟩ initialState).1.videoRecording
          pkt).written = []) :=
  C8_start_failure_stays_idle initialState ⟨true, false⟩ rfl rfl rfl (Or.inl rfl)

/-- Evaluation of the goroutine-per-write revision at the failing input for
claim C9: with two packets arriving while recording, the unsynchronised
per-packet write goroutines of `video.go:554-565` admit the reversed
delivery order, which differs from the arrival order — while the
synchronous-write revision of `video.go:208-219` delivers exactly the
arrival order. -/
theorem C9_async_write_reorders :
    [[2], [1]] ∈ asyncDeliveries [[1], [2]] ∧
    ([[2], [1]] : List Packet) ≠ [[1], [2]] ∧
    syncDeliveries true [[1], [2]] = [[1], [2]] ∧
    (∀ arrivals : List Packet, syncDeliveries true arrivals = arrivals) := by
  refine ⟨?_, by decide, by decide, ?_⟩
  · rw [asyncDeliveries, List.mem_permutations]
    exact List.Perm.swap _ _ _
  intro arrivals
  induction arrivals with
  | nil => rfl
  | cons p ps ih => simpa [syncDeliveries, customReader] using ih

end Tellodesk
